import Mathlib

/-!
Shallow embedding of the mexuri survey backend:
`routes/surveys.js` (public submission handler and EmailJS notification),
`routes/adminSurveys.js` (admin list / get-by-id / delete handlers),
`middleware/basicAuth.js` (Basic-Auth credential parsing and checking),
and `server.js` (the catch-all error middleware).

JavaScript values that are either a string or `null`/`undefined` are
modelled as `Option String`; JavaScript truthiness on such values is
`truthy` below.  The MySQL store is modelled as a list of rows plus an
auto-increment counter; each fallible store call is parametrized by an
injected outcome so that error paths are part of the model.
-/

/-- JS truthiness for a string-or-nullish value: `null`, `undefined` and
`""` are falsy, every other string is truthy. -/
def truthy : Option String → Bool
  | none => false
  | some s => !(s == "")

/-- Evaluation of `a || d` for a string-or-nullish `a` and a string default `d`. -/
def jsOr (a : Option String) (d : String) : String :=
  match a with
  | none => d
  | some s => if s == "" then d else s

/-- Evaluation of `a === b` for two string-or-undefined JS values: `undefined === undefined`
is true, two strings compare by content, a string never equals `undefined`. -/
def jsStrictEqOpt : Option String → Option String → Bool
  | none, none => true
  | some a, some b => a == b
  | _, _ => false

/-- Test that `p` is an initial segment of `l` (character-list version of JS
`String.prototype.startsWith`). -/
def segStarts : List Char → List Char → Bool
  | [], _ => true
  | _ :: _, [] => false
  | a :: p, b :: l => a == b && segStarts p l

/-- Test that `p` occurs as a contiguous segment of `l` (substring containment). -/
def segInside (p : List Char) : List Char → Bool
  | [] => segStarts p []
  | c :: l => segStarts p (c :: l) || segInside p l

/-- JS `s.startsWith(pre)`. -/
def jsStartsWith (s pre : String) : Bool := segStarts pre.toList s.toList

/-- Test that `sub` occurs as a contiguous substring of `s`. -/
def substrB (sub s : String) : Bool := segInside sub.toList s.toList

/-- Split a character list at every occurrence of `sep`
(JS `String.prototype.split` with a single-character separator:
always returns at least one, possibly empty, component). -/
def splitChar (sep : Char) : List Char → List (List Char)
  | [] => [[]]
  | c :: cs =>
    if c == sep then [] :: splitChar sep cs
    else
      match splitChar sep cs with
      | [] => [[c]]
      | l :: ls => (c :: l) :: ls

/-- JS `s.split(sep)` for a one-character separator. -/
def jsSplitOn (sep : Char) (s : String) : List String :=
  (splitChar sep s.toList).map String.mk

/-- Numeric value of a list of decimal digit characters. -/
def natOfDigits (ds : List Char) : Nat :=
  ds.foldl (fun a c => a * 10 + (c.toNat - 48)) 0

/-- JS `parseInt(s, 10)`: skip leading whitespace, optional sign, longest
digit run; `none` models the `NaN` result when no digits are found. -/
def parseIntJs (s : String) : Option Int :=
  let cs := s.toList.dropWhile (fun c => c == ' ' || c == '\t' || c == '\n' || c == '\r')
  let signed : Int × List Char :=
    match cs with
    | '-' :: r => (-1, r)
    | '+' :: r => (1, r)
    | r => (1, r)
  let ds := signed.2.takeWhile Char.isDigit
  if ds.isEmpty then none
  else some (signed.1 * Int.ofNat (natOfDigits ds))

/-- JS `Math.max(a, x)` with `NaN` (= `none`) propagation. -/
def jsMax (a : Int) : Option Int → Option Int
  | none => none
  | some x => some (max a x)

/-- JS `Math.min(a, x)` with `NaN` (= `none`) propagation. -/
def jsMin (a : Int) : Option Int → Option Int
  | none => none
  | some x => some (min a x)

/-- Value of a base64-alphabet character, `none` for any other character. -/
def b64Val (c : Char) : Option Nat :=
  if 'A' ≤ c ∧ c ≤ 'Z' then some (c.toNat - 65)
  else if 'a' ≤ c ∧ c ≤ 'z' then some (c.toNat - 97 + 26)
  else if '0' ≤ c ∧ c ≤ '9' then some (c.toNat - 48 + 52)
  else if c = '+' then some 62
  else if c = '/' then some 63
  else none

/-- Groups of four 6-bit values become three bytes; a trailing group of two
or three values yields one or two bytes; a lone value yields nothing. -/
def bytesOfSextets : List Nat → List Nat
  | a :: b :: c :: d :: rest =>
    (a * 4 + b / 16) :: ((b % 16) * 16 + c / 4) :: ((c % 4) * 64 + d) :: bytesOfSextets rest
  | [a, b] => [a * 4 + b / 16]
  | [a, b, c] => [a * 4 + b / 16, (b % 16) * 16 + c / 4]
  | _ => []

/-- Node's forgiving `Buffer.from(s, 'base64').toString('utf8')`: characters
outside the base64 alphabet (including `=` padding) are skipped, complete
6-bit groups are assembled into bytes, and it never throws.  Bytes are mapped
to characters directly, which agrees with UTF-8 decoding on ASCII payloads
(the only payloads the credential claims exercise). -/
def b64DecodeStr (s : String) : String :=
  String.mk ((bytesOfSextets (s.toList.filterMap b64Val)).map Char.ofNat)

/-- Does `f` hold of some suffix of the list (including itself and `[]`)?
Used to give `%` its "match any run" meaning structurally. -/
def likeSuffixAny (f : List Char → Bool) : List Char → Bool
  | [] => f []
  | c :: t => f (c :: t) || likeSuffixAny f t

/-- SQL `LIKE` pattern matching over character lists, MySQL semantics:
`%` matches any (possibly empty) run — i.e. the rest of the pattern
matches some suffix — `_` matches exactly one character, and the default
escape character backslash is stripped so that the character following it
(any character, wildcard or not) is matched literally; a lone trailing
backslash matches a literal backslash.  Every other pattern character
matches itself (binary/case-sensitive collation). -/
def likeMatch : List Char → List Char → Bool
  | [], t => t.isEmpty
  | c :: p, t =>
    if c == '%' then likeSuffixAny (likeMatch p) t
    else if c == '\\' then
      match p with
      | c2 :: p' =>
        match t with
        | [] => false
        | c' :: t' => c2 == c' && likeMatch p' t'
      | [] => t == ['\\']
    else
      match t with
      | [] => false
      | c' :: t' => (if c == '_' then true else c == c') && likeMatch p t'

/-! ## Data model: survey rows, the store, HTTP responses -/

/-- One row of the `surveys` table as produced by the insert in
`routes/surveys.js` (the columns the admin queries read back). -/
structure SurveyRow where
  id : Nat
  brand_name : Option String
  brand_service : Option String
  description : Option String
  responses : String
  is_submitted : Bool
  submitted_at : String
  created_at : String
deriving DecidableEq, Repr

/-- The relational store: rows plus the auto-increment counter the next
insert will use. -/
structure Store where
  rows : List SurveyRow
  nextId : Nat
deriving DecidableEq, Repr

/-- JSON response bodies the routes produce. -/
inductive RespBody where
  /-- `{ error: msg }` -/
  | errMsg (msg : String)
  /-- `{ id }` from the 201 submission response -/
  | createdId (id : Nat)
  /-- `{ items, total, page, limit }` from the admin list route
  (`page`/`limit` are JS numbers, `none` models `NaN`) -/
  | listing (items : List SurveyRow) (total : Nat) (page : Option Int) (limit : Option Int)
  /-- a full row from the admin get-by-id route -/
  | record (row : SurveyRow)
  /-- `{ deletedId }` echoing the route parameter -/
  | deleted (id : String)
deriving DecidableEq, Repr

/-- An HTTP response: status, JSON body, and the optional
`WWW-Authenticate` header value. -/
structure Response where
  status : Nat
  body : RespBody
  wwwAuthenticate : Option String
deriving DecidableEq, Repr

/-- Observable outcome of running one route handler: the response it sent
(`none` when an error escaped the handler), whether a pool connection was
acquired and released, the store afterwards, the server-side log entries,
and any error that escaped past the handler. -/
structure HandlerOutcome where
  response : Option Response
  connAcquired : Bool
  connReleased : Bool
  store : Store
  logged : List String
  escaped : Option String
deriving DecidableEq, Repr

/-- Injected outcomes for the two fallible store steps of a handler:
`connErr` makes `pool.getConnection()` throw with the given detail,
`queryErr` makes the first `conn.query(...)` throw with the given detail. -/
structure DbEnv where
  connErr : Option String
  queryErr : Option String
deriving DecidableEq, Repr

/-- A store environment in which every step succeeds. -/
def dbOk : DbEnv := ⟨none, none⟩

/-! ## Credential checker (`middleware/basicAuth.js`) -/

/-- Result of destructuring `decoded.split(':')` into `[user, pass]`:
`user` is always a string, `pass` is `undefined` when the decoded payload
has no colon. -/
structure Creds where
  user : String
  pass : Option String
deriving DecidableEq, Repr

/-- The two configured secrets `ADMIN_USER` / `ADMIN_PASS`
(`none` models an unset environment variable). -/
structure AdminConfig where
  adminUser : Option String
  adminPass : Option String
deriving DecidableEq, Repr

/-- Outcome of the `basicAuth` middleware: either control passes onward
with `req.admin = { user }` attached, or a response is sent. -/
inductive AuthResult where
  | proceed (adminUser : String)
  | reject (resp : Response)
deriving DecidableEq, Repr

/-- The base64 payload the parser extracts and decodes: `none` on a
missing/empty header, a header not starting with `"Basic "`, or (in the
source, caught by its `try`) a missing second token. -/
def decodedPayload (header : Option String) : Option String :=
  match header with
  | none => none
  | some h =>
    if h == "" then none
    else if !(jsStartsWith h "Basic ") then none
    else
      match (jsSplitOn ' ' h).get? 1 with
      | none => none
      | some b64 => some (b64DecodeStr b64)

/-- Model of `parseBasicAuth(header)`: decode the payload and destructure
`decoded.split(':')` as `[user, pass]`. -/
def parseBasicAuth (header : Option String) : Option Creds :=
  (decodedPayload header).map fun d =>
    let parts := splitChar ':' d.toList
    { user := String.mk (parts.headD []), pass := (parts.get? 1).map String.mk }

/-- The `WWW-Authenticate` challenge value both rejection paths set. -/
def challengeValue : String := "Basic realm=\"Admin Area\""

/-- The `basicAuth` middleware: reject 401 when no credentials parse,
compare with `===` against the configured secrets, attach the username and
proceed on a double match, otherwise reject 401. -/
def basicAuth (cfg : AdminConfig) (header : Option String) : AuthResult :=
  match parseBasicAuth header with
  | none =>
    .reject ⟨401, .errMsg "Missing or invalid Authorization header", some challengeValue⟩
  | some creds =>
    if jsStrictEqOpt (some creds.user) cfg.adminUser && jsStrictEqOpt creds.pass cfg.adminPass then
      .proceed creds.user
    else
      .reject ⟨401, .errMsg "Unauthorized", some challengeValue⟩

/-! ## Notification sender (`sendEmailNotification` in `routes/surveys.js`) -/

/-- Outcome of the external `axios.post` call: axios resolves with a 2xx
status and throws (rejects) on transport failure or a non-success status. -/
inductive AxiosResult where
  | ok (status : Nat)
  | err (detail : String)
deriving DecidableEq, Repr

/-- The three EmailJS configuration values plus the injected outcome of the
external call (used only when the call is made). -/
structure EmailEnv where
  serviceId : Option String
  templateId : Option String
  userId : Option String
  axiosResult : AxiosResult
deriving DecidableEq, Repr

/-- The JSON payload `sendEmailNotification` posts to the EmailJS endpoint. -/
structure EmailPayload where
  service_id : String
  template_id : String
  user_id : String
  survey_id : String
  brand_name : String
  message : String
  submitted_at : String
deriving DecidableEq, Repr

/-- Observable outcome of one `sendEmailNotification` invocation: whether
the external call was made (and with what payload), what was logged, and
whether anything was thrown to the caller (`none` = returned normally). -/
structure NotifyOutcome where
  callMade : Bool
  payload : Option EmailPayload
  logged : List String
  threw : Option String
deriving DecidableEq, Repr

/-- Model of `sendEmailNotification(...)`: skip (with a warning
log) unless all three configuration values are truthy; otherwise post the
payload and log success or the caught failure.  `now` stands for
`new Date().toISOString()`. -/
def sendEmailNotification (em : EmailEnv) (insertedId : Nat) (brandName : Option String)
    (now : String) : NotifyOutcome :=
  if !truthy em.serviceId || !truthy em.templateId || !truthy em.userId then
    ⟨false, none, ["EmailJS credentials not configured; skipping notification"], none⟩
  else
    let payload : EmailPayload :=
      ⟨em.serviceId.getD "", em.templateId.getD "", em.userId.getD "",
       toString insertedId,
       (if truthy brandName then brandName.getD "" else "N/A"),
       "A new survey was submitted (id: " ++ toString insertedId ++ ").",
       now⟩
    match em.axiosResult with
    | .ok s =>
      ⟨true, some payload,
       ["EmailJS notification sent for survey " ++ toString insertedId
          ++ " (status " ++ toString s ++ ")"], none⟩
    | .err d =>
      ⟨true, some payload, ["EmailJS notify error " ++ d], none⟩

/-! ## Submission handler (`POST /api/surveys` in `routes/surveys.js`) -/

/-- The destructured request body: each absent property defaults to `null`,
so absent and `null` coincide as `none`. -/
structure SurveyReqBody where
  brand_name : Option String
  brand_service : Option String
  target_audience : Option String
  business_why : Option String
  customer_impression : Option String
  contact : Option String
  submitted_at : Option String
deriving DecidableEq, Repr

/-- The handler's validation test, in source order: every one of the six
semantic fields is falsy (empty or absent). -/
def allSemanticEmpty (b : SurveyReqBody) : Bool :=
  !truthy b.brand_service && !truthy b.target_audience && !truthy b.business_why
    && !truthy b.customer_impression && !truthy b.contact && !truthy b.brand_name

/-- Minimal JSON string escaping used by `JSON.stringify` for the payloads
in scope (quote and backslash; control characters do not occur in the
inputs the claims exercise). -/
def jsonEscape (s : String) : String :=
  String.mk (s.toList.foldr
    (fun c acc =>
      if c == '"' then '\\' :: '"' :: acc
      else if c == '\\' then '\\' :: '\\' :: acc
      else c :: acc) [])

/-- Rendering `JSON.stringify` gives a string-or-null value. -/
def jsonOfOpt : Option String → String
  | none => "null"
  | some s => "\"" ++ jsonEscape s ++ "\""

/-- The `responses` blob: `JSON.stringify({target_audience, business_why,
customer_impression, contact})`. -/
def responsesJson (b : SurveyReqBody) : String :=
  "\x7b\"target_audience\":" ++ jsonOfOpt b.target_audience
    ++ ",\"business_why\":" ++ jsonOfOpt b.business_why
    ++ ",\"customer_impression\":" ++ jsonOfOpt b.customer_impression
    ++ ",\"contact\":" ++ jsonOfOpt b.contact ++ "\x7d"

/-- The row the insert statement creates: `description` reuses
`brand_service`, `is_submitted` is 1, `submitted_at` is the client value or
the current time, `created_at` is `NOW()`. -/
def insertedRow (now : String) (b : SurveyReqBody) (id : Nat) : SurveyRow :=
  { id := id
    brand_name := b.brand_name
    brand_service := b.brand_service
    description := b.brand_service
    responses := responsesJson b
    is_submitted := true
    submitted_at := if truthy b.submitted_at then (b.submitted_at.getD "") else now
    created_at := now }

/-- The `POST /api/surveys` handler.  Validation happens before
`pool.getConnection()`; the connection is acquired outside the `try`, so a
connection-acquisition failure escapes the handler; insert failures are
caught and answered with a generic 500; on success the handler responds
201 and then fires the notification (whose logs are recorded). -/
def handlePostSurvey (db : DbEnv) (em : EmailEnv) (now : String) (b : SurveyReqBody)
    (st : Store) : HandlerOutcome :=
  if allSemanticEmpty b then
    ⟨some ⟨400, .errMsg "At least one field is required", none⟩, false, false, st, [], none⟩
  else
    match db.connErr with
    | some d => ⟨none, false, false, st, [], some d⟩
    | none =>
      match db.queryErr with
      | some d =>
        ⟨some ⟨500, .errMsg "Failed to save survey", none⟩, true, true, st,
         ["POST /api/surveys error " ++ d], none⟩
      | none =>
        let notify := sendEmailNotification em st.nextId b.brand_name now
        ⟨some ⟨201, .createdId st.nextId, none⟩, true, true,
         ⟨st.rows ++ [insertedRow now b st.nextId], st.nextId + 1⟩,
         notify.logged, none⟩

/-- The submission route composed with the catch-all error middleware of
`server.js`: an error that escapes the handler is converted into a generic
500 `{ error: 'Server error' }` (headers were not yet sent) and logged. -/
def postSurveyPipeline (db : DbEnv) (em : EmailEnv) (now : String) (b : SurveyReqBody)
    (st : Store) : Response × Store × List String :=
  let o := handlePostSurvey db em now b st
  match o.response with
  | some r => (r, o.store, o.logged)
  | none =>
    (⟨500, .errMsg "Server error", none⟩, o.store,
     o.logged ++ ["Unhandled error: " ++ (o.escaped.getD "")])

/-! ## Admin routes (`routes/adminSurveys.js`) -/

/-- The query string of `GET /api/admin/surveys?page&limit&search`. -/
structure ListQuery where
  page : Option String
  limit : Option String
  search : Option String
deriving DecidableEq, Repr

/-- Effective page `Math.max(1, parseInt(req.query.page || '1', 10))`. -/
def effPageNum (q : ListQuery) : Option Int :=
  jsMax 1 (parseIntJs (jsOr q.page "1"))

/-- Effective limit `Math.min(100, parseInt(req.query.limit || '20', 10))`. -/
def effLimitNum (q : ListQuery) : Option Int :=
  jsMin 100 (parseIntJs (jsOr q.limit "20"))

/-- Offset `(page - 1) * limit` with `NaN` propagation. -/
def effOffset (q : ListQuery) : Option Int :=
  match effPageNum q, effLimitNum q with
  | some p, some l => some ((p - 1) * l)
  | _, _ => none

/-- A whitespace character as JS `trim` sees it (ASCII fragment). -/
def isWsChar (c : Char) : Bool := c == ' ' || c == '\t' || c == '\n' || c == '\r'

/-- JS `s.trim()`: strip whitespace from both ends. -/
def jsTrim (s : String) : String :=
  String.mk (((s.toList.dropWhile isWsChar).reverse.dropWhile isWsChar).reverse)

/-- Trimmed search term `(req.query.search || '').trim()`. -/
def effSearch (q : ListQuery) : String := jsTrim (jsOr q.search "")

/-- A positional SQL parameter: a string or a JS number (`none` = `NaN`). -/
inductive SqlParam where
  | str (s : String)
  | num (n : Option Int)
deriving DecidableEq, Repr

def countSqlBase : String := "SELECT COUNT(*) as cnt FROM surveys"

def dataSqlBase : String :=
  "SELECT id, brand_name, brand_service, description, responses, is_submitted, submitted_at FROM surveys"

/-- The shared conditional filter clause. -/
def likeClauseStr : String :=
  " WHERE brand_name LIKE ? OR brand_service LIKE ? OR description LIKE ?"

def orderLimitStr : String := " ORDER BY submitted_at DESC, id DESC LIMIT ? OFFSET ?"

/-- The wildcard-wrapped parameter value ``` `%${search}%` ```. -/
def wrapLike (search : String) : String := "%" ++ search ++ "%"

/-- The count query and its positional parameters, as composed by the list
handler: the filter clause and three copies of the wrapped term are added
only when `search` is truthy (non-empty after trimming). -/
def buildCountQuery (search : String) : String × List SqlParam :=
  if search == "" then (countSqlBase, [])
  else (countSqlBase ++ likeClauseStr,
    [.str (wrapLike search), .str (wrapLike search), .str (wrapLike search)])

/-- The data query and its positional parameters: same optional filter
clause and parameter triple, then the order/limit/offset tail. -/
def buildDataQuery (search : String) (limit offset : Option Int) : String × List SqlParam :=
  let base :=
    if search == "" then (dataSqlBase, ([] : List SqlParam))
    else (dataSqlBase ++ likeClauseStr,
      [.str (wrapLike search), .str (wrapLike search), .str (wrapLike search)])
  (base.1 ++ orderLimitStr, base.2 ++ [.num limit, .num offset])

/-- Semantics of `field LIKE pattern` on a nullable column: a NULL field never matches. -/
def optLike (pattern : String) : Option String → Bool
  | none => false
  | some s => likeMatch pattern.toList s.toList

/-- Row semantics of the filter clause: with an empty search every row
passes (no clause); otherwise the three LIKE disjuncts. -/
def rowMatchesSearch (search : String) (r : SurveyRow) : Bool :=
  if search == "" then true
  else optLike (wrapLike search) r.brand_name
    || optLike (wrapLike search) r.brand_service
    || optLike (wrapLike search) r.description

/-- Lexicographic comparison of character lists (binary collation order). -/
def charListLt : List Char → List Char → Bool
  | [], [] => false
  | [], _ :: _ => true
  | _ :: _, [] => false
  | a :: as, b :: bs => decide (a < b) || (a == b && charListLt as bs)

/-- String comparison under the store's binary collation. -/
def strLt (a b : String) : Bool := charListLt a.toList b.toList

/-- Whether `a` precedes `b` under `ORDER BY submitted_at DESC, id DESC`. -/
def rowBefore (a b : SurveyRow) : Bool :=
  strLt b.submitted_at a.submitted_at
    || (a.submitted_at == b.submitted_at && b.id ≤ a.id)

/-- Insertion into a list sorted by `rowBefore`. -/
def insertRowSorted (r : SurveyRow) : List SurveyRow → List SurveyRow
  | [] => [r]
  | x :: xs => if rowBefore r x then r :: x :: xs else x :: insertRowSorted r xs

/-- The full result set in `ORDER BY submitted_at DESC, id DESC` order. -/
def sortRows (l : List SurveyRow) : List SurveyRow :=
  l.foldr insertRowSorted []

/-- Store semantics of the data query: MySQL rejects a `NaN` or negative
`LIMIT`/`OFFSET` parameter (query error, `none`); otherwise filter, order,
and apply the offset/limit window. -/
def execListQuery (rows : List SurveyRow) (search : String) (limit offset : Option Int) :
    Option (List SurveyRow) :=
  match limit, offset with
  | some l, some o =>
    if l < 0 || o < 0 then none
    else some (((sortRows (rows.filter (rowMatchesSearch search))).drop o.toNat).take l.toNat)
  | _, _ => none

/-- Handler of `GET /api/admin/surveys`: compute page/limit/offset/search, run the
count query then the data query, answer 200 with items/total/page/limit;
any store failure is caught and answered 500 with a fixed generic body
while the error detail goes to the server log. -/
def listHandler (db : DbEnv) (q : ListQuery) (st : Store) : HandlerOutcome :=
  match db.connErr with
  | some d =>
    ⟨some ⟨500, .errMsg "Failed to fetch surveys", none⟩, false, false, st,
     ["GET /api/admin/surveys error (detailed): " ++ d], none⟩
  | none =>
    match db.queryErr with
    | some d =>
      ⟨some ⟨500, .errMsg "Failed to fetch surveys", none⟩, true, true, st,
       ["GET /api/admin/surveys error (detailed): " ++ d], none⟩
    | none =>
      let search := effSearch q
      let filtered := st.rows.filter (rowMatchesSearch search)
      match execListQuery st.rows search (effLimitNum q) (effOffset q) with
      | none =>
        ⟨some ⟨500, .errMsg "Failed to fetch surveys", none⟩, true, true, st,
         ["GET /api/admin/surveys error (detailed): invalid LIMIT or OFFSET parameter"], none⟩
      | some items =>
        ⟨some ⟨200, .listing items filtered.length (effPageNum q) (effLimitNum q), none⟩,
         true, true, st, [], none⟩

/-- MySQL's numeric coercion of the string route parameter compared against
the integer `id` column: the leading numeric part of the string, `0` when
there is none. -/
def mysqlCoerceInt (s : String) : Int := (parseIntJs s).getD 0

/-- Row predicate of `WHERE id = ?` with the string route parameter. -/
def idMatches (idStr : String) (r : SurveyRow) : Bool :=
  mysqlCoerceInt idStr == Int.ofNat r.id

/-- Handler of `GET /api/admin/surveys/:id`: `SELECT ... WHERE id = ? LIMIT 1`,
404 when no row matches, otherwise 200 with the row. -/
def getByIdHandler (db : DbEnv) (idStr : String) (st : Store) : HandlerOutcome :=
  match db.connErr with
  | some d =>
    ⟨some ⟨500, .errMsg "Failed to fetch survey detail", none⟩, false, false, st,
     ["GET /api/admin/surveys/:id error (detailed): " ++ d], none⟩
  | none =>
    match db.queryErr with
    | some d =>
      ⟨some ⟨500, .errMsg "Failed to fetch survey detail", none⟩, true, true, st,
       ["GET /api/admin/surveys/:id error (detailed): " ++ d], none⟩
    | none =>
      match st.rows.find? (idMatches idStr) with
      | none => ⟨some ⟨404, .errMsg "Not found", none⟩, true, true, st, [], none⟩
      | some r => ⟨some ⟨200, .record r, none⟩, true, true, st, [], none⟩

/-- Handler of `DELETE /api/admin/surveys/:id`: delete every row matching the id,
404 when zero rows were affected, otherwise 200 echoing the id. -/
def deleteHandler (db : DbEnv) (idStr : String) (st : Store) : HandlerOutcome :=
  match db.connErr with
  | some d =>
    ⟨some ⟨500, .errMsg "Failed to delete survey", none⟩, false, false, st,
     ["DELETE /api/admin/surveys/:id error (detailed): " ++ d], none⟩
  | none =>
    match db.queryErr with
    | some d =>
      ⟨some ⟨500, .errMsg "Failed to delete survey", none⟩, true, true, st,
       ["DELETE /api/admin/surveys/:id error (detailed): " ++ d], none⟩
    | none =>
      let affected := (st.rows.filter (idMatches idStr)).length
      if affected == 0 then
        ⟨some ⟨404, .errMsg "Not found", none⟩, true, true, st, [], none⟩
      else
        ⟨some ⟨200, .deleted idStr, none⟩, true, true,
         ⟨st.rows.filter (fun r => !idMatches idStr r), st.nextId⟩, [], none⟩

/-! ## Theorems -/

/-- C1: a `POST /api/surveys` request whose six semantic fields are all
empty/absent is answered 400 with a JSON error body, with no store
connection acquired and the store untouched; a request with at least one
non-empty semantic field is never answered 400 on this path. -/
theorem c1_validation_gate (db : DbEnv) (em : EmailEnv) (now : String) (b : SurveyReqBody)
    (st : Store) :
    (∀ r, (handlePostSurvey db em now b st).response = some r →
      (r.status = 400 ↔ allSemanticEmpty b = true))
    ∧ (allSemanticEmpty b = true →
        (handlePostSurvey db em now b st).response
            = some ⟨400, .errMsg "At least one field is required", none⟩
          ∧ (handlePostSurvey db em now b st).connAcquired = false
          ∧ (handlePostSurvey db em now b st).store = st) := by
  cases hA : allSemanticEmpty b with
  | true =>
    refine ⟨?_, fun _ => ?_⟩
    · intro r hr
      simp only [handlePostSurvey, hA, if_true] at hr
      cases hr
      simp
    · simp [handlePostSurvey, hA]
  | false =>
    refine ⟨?_, by simp⟩
    intro r hr
    simp only [handlePostSurvey, hA, Bool.false_eq_true, if_false] at hr
    cases hc : db.connErr with
    | some d => simp [hc] at hr
    | none =>
      cases hq : db.queryErr with
      | some d => simp [hc, hq] at hr; cases hr; simp
      | none => simp [hc, hq] at hr; cases hr; simp

/-- C1 witness: a concrete all-empty submission is refused with 400 before
any connection is acquired, on a concrete store. -/
theorem c1_validation_gate_witness :
    (handlePostSurvey dbOk ⟨none, none, none, .ok 200⟩ "T"
        ⟨none, none, none, none, none, none, none⟩ ⟨[], 1⟩).response
        = some ⟨400, .errMsg "At least one field is required", none⟩
      ∧ (handlePostSurvey dbOk ⟨none, none, none, .ok 200⟩ "T"
        ⟨none, none, none, none, none, none, none⟩ ⟨[], 1⟩).connAcquired = false
      ∧ (handlePostSurvey dbOk ⟨none, none, none, .ok 200⟩ "T"
        ⟨none, none, none, none, none, none, none⟩ ⟨[], 1⟩).store = ⟨[], 1⟩ := by
  have h := (c1_validation_gate dbOk ⟨none, none, none, .ok 200⟩ "T"
    ⟨none, none, none, none, none, none, none⟩ ⟨[], 1⟩).2 (by decide)
  exact h

/-- C9: every record the submission handler creates stores the submitted
`brand_service` value in `description` and has `is_submitted` true,
whatever the other fields are. -/
theorem c9_created_record_fields (db : DbEnv) (em : EmailEnv) (now : String)
    (b : SurveyReqBody) (st : Store) (i : Nat)
    (h : (handlePostSurvey db em now b st).response = some ⟨201, .createdId i, none⟩) :
    ∃ row, (handlePostSurvey db em now b st).store.rows = st.rows ++ [row]
      ∧ row.description = b.brand_service ∧ row.is_submitted = true := by
  cases hA : allSemanticEmpty b with
  | true => simp [handlePostSurvey, hA] at h
  | false =>
    cases hc : db.connErr with
    | some d => simp [handlePostSurvey, hA, hc] at h
    | none =>
      cases hq : db.queryErr with
      | some d => simp [handlePostSurvey, hA, hc, hq] at h
      | none =>
        refine ⟨insertedRow now b st.nextId, ?_, rfl, rfl⟩
        simp [handlePostSurvey, hA, hc, hq]

/-- C9 witness: a concrete valid submission appends a row whose
`description` equals the submitted `brand_service` and whose
`is_submitted` flag is true. -/
theorem c9_created_record_fields_witness :
    ∃ row, (handlePostSurvey dbOk ⟨none, none, none, .ok 200⟩ "T"
        ⟨some "Acme", some "web", none, none, none, none, none⟩ ⟨[], 1⟩).store.rows
        = ([] : List SurveyRow) ++ [row]
      ∧ row.description = some "web" ∧ row.is_submitted = true :=
  c9_created_record_fields dbOk ⟨none, none, none, .ok 200⟩ "T"
    ⟨some "Acme", some "web", none, none, none, none, none⟩ ⟨[], 1⟩ 1 rfl

/-- C8: the notification sender never throws to its caller; when any of
the three configuration values is unset the external call is skipped; a
failed external call is logged; and the submission response is identical
whatever the notification configuration and outcome are. -/
theorem c8_notification_isolation (em : EmailEnv) (i : Nat) (bn : Option String)
    (now : String) :
    (sendEmailNotification em i bn now).threw = none
    ∧ ((em.serviceId = none ∨ em.templateId = none ∨ em.userId = none) →
        (sendEmailNotification em i bn now).callMade = false)
    ∧ (∀ d, em.axiosResult = .err d → (sendEmailNotification em i bn now).callMade = true →
        ("EmailJS notify error " ++ d) ∈ (sendEmailNotification em i bn now).logged)
    ∧ (∀ (db : DbEnv) (b : SurveyReqBody) (st : Store) (em' : EmailEnv),
        (handlePostSurvey db em now b st).response = (handlePostSurvey db em' now b st).response) := by
  refine ⟨?_, ?_, ?_, ?_⟩
  · by_cases hcfg : (!truthy em.serviceId || !truthy em.templateId || !truthy em.userId) = true
    · simp [sendEmailNotification, hcfg]
    · cases ha : em.axiosResult <;> simp [sendEmailNotification, hcfg, ha]
  · intro hun
    have hcfg : (!truthy em.serviceId || !truthy em.templateId || !truthy em.userId) = true := by
      rcases hun with h | h | h <;> simp [h, truthy]
    simp [sendEmailNotification, hcfg]
  · intro d ha hmade
    by_cases hcfg : (!truthy em.serviceId || !truthy em.templateId || !truthy em.userId) = true
    · simp [sendEmailNotification, hcfg] at hmade
    · simp [sendEmailNotification, hcfg, ha]
  · intro db b st em'
    cases hA : allSemanticEmpty b with
    | true => simp [handlePostSurvey, hA]
    | false =>
      cases hc : db.connErr with
      | some d => simp [handlePostSurvey, hA, hc]
      | none =>
        cases hq : db.queryErr with
        | some d => simp [handlePostSurvey, hA, hc, hq]
        | none => simp [handlePostSurvey, hA, hc, hq]

/-- C8 witness: with the template id unset the call is skipped and nothing
is thrown; and with everything configured a failing call is logged while
the concrete submission response is unchanged. -/
theorem c8_notification_isolation_witness :
    (sendEmailNotification ⟨some "svc", none, some "usr", .ok 200⟩ 7 (some "Acme") "T").threw = none
    ∧ (sendEmailNotification ⟨some "svc", none, some "usr", .ok 200⟩ 7 (some "Acme") "T").callMade = false
    ∧ ("EmailJS notify error boom")
        ∈ (sendEmailNotification ⟨some "svc", some "tpl", some "usr", .err "boom"⟩ 7 (some "Acme") "T").logged
    ∧ (handlePostSurvey dbOk ⟨some "svc", some "tpl", some "usr", .err "boom"⟩ "T"
          ⟨some "Acme", none, none, none, none, none, none⟩ ⟨[], 1⟩).response
      = (handlePostSurvey dbOk ⟨none, none, none, .ok 200⟩ "T"
          ⟨some "Acme", none, none, none, none, none, none⟩ ⟨[], 1⟩).response := by
  refine ⟨(c8_notification_isolation ⟨some "svc", none, some "usr", .ok 200⟩ 7 (some "Acme") "T").1,
    (c8_notification_isolation ⟨some "svc", none, some "usr", .ok 200⟩ 7 (some "Acme") "T").2.1
      (Or.inr (Or.inl rfl)),
    (c8_notification_isolation ⟨some "svc", some "tpl", some "usr", .err "boom"⟩ 7 (some "Acme") "T").2.2.1
      "boom" rfl (by decide),
    (c8_notification_isolation ⟨some "svc", some "tpl", some "usr", .err "boom"⟩ 7 (some "Acme") "T").2.2.2
      dbOk ⟨some "Acme", none, none, none, none, none, none⟩ ⟨[], 1⟩ ⟨none, none, none, .ok 200⟩⟩

theorem jsStrictEqOpt_some_right (a : Option String) (b : String) :
    jsStrictEqOpt a (some b) = true ↔ a = some b := by
  cases a with
  | none => simp [jsStrictEqOpt]
  | some x => simp [jsStrictEqOpt]

theorem basicAuth_proceed_iff (cfg : AdminConfig) (h : Option String) (u : String) :
    basicAuth cfg h = .proceed u ↔
      ∃ c, parseBasicAuth h = some c ∧ c.user = u
        ∧ jsStrictEqOpt (some c.user) cfg.adminUser = true
        ∧ jsStrictEqOpt c.pass cfg.adminPass = true := by
  constructor
  · intro hpr
    cases hpb : parseBasicAuth h with
    | none =>
      rw [basicAuth, hpb] at hpr
      exact absurd hpr (by simp)
    | some c =>
      rw [basicAuth, hpb] at hpr
      dsimp only at hpr
      by_cases hb : (jsStrictEqOpt (some c.user) cfg.adminUser
          && jsStrictEqOpt c.pass cfg.adminPass) = true
      · rw [if_pos hb] at hpr
        rw [Bool.and_eq_true] at hb
        simp only [AuthResult.proceed.injEq] at hpr
        exact ⟨c, rfl, hpr, hb.1, hb.2⟩
      · rw [if_neg hb] at hpr
        exact absurd hpr (by simp)
  · rintro ⟨c, hpb, huser, h1, h2⟩
    have hb : (jsStrictEqOpt (some c.user) cfg.adminUser
        && jsStrictEqOpt c.pass cfg.adminPass) = true := by
      rw [Bool.and_eq_true]
      exact ⟨h1, h2⟩
    rw [basicAuth, hpb]
    dsimp only
    rw [if_pos hb, huser]

theorem basicAuth_reject_facts (cfg : AdminConfig) (h : Option String) (r : Response)
    (hr : basicAuth cfg h = .reject r) :
    r.status = 401 ∧ r.wwwAuthenticate = some challengeValue
      ∧ ∃ m, r.body = .errMsg m := by
  cases hpb : parseBasicAuth h with
  | none =>
    rw [basicAuth, hpb] at hr
    simp only [AuthResult.reject.injEq] at hr
    subst hr
    exact ⟨rfl, rfl, _, rfl⟩
  | some c =>
    rw [basicAuth, hpb] at hr
    dsimp only at hr
    by_cases hb : (jsStrictEqOpt (some c.user) cfg.adminUser
        && jsStrictEqOpt c.pass cfg.adminPass) = true
    · rw [if_pos hb] at hr
      exact absurd hr (by simp)
    · rw [if_neg hb] at hr
      simp only [AuthResult.reject.injEq] at hr
      subst hr
      exact ⟨rfl, rfl, _, rfl⟩

/-- C2: with both secrets configured, the credential checker passes control
onward, attaching the parsed username, exactly when the parsed username
and password are string-equal to the configured values; every rejection is
a 401 JSON error carrying the `WWW-Authenticate: Basic` challenge. -/
theorem c2_credential_decision (cfg : AdminConfig) (h : Option String) (eu ep : String)
    (hu : cfg.adminUser = some eu) (hp : cfg.adminPass = some ep) :
    ((∃ u, basicAuth cfg h = .proceed u) ↔
      (∃ c, parseBasicAuth h = some c ∧ c.user = eu ∧ c.pass = some ep))
    ∧ (∀ u, basicAuth cfg h = .proceed u → u = eu)
    ∧ (∀ r, basicAuth cfg h = .reject r →
        r.status = 401 ∧ r.wwwAuthenticate = some challengeValue
          ∧ ∃ m, r.body = .errMsg m) := by
  refine ⟨⟨?_, ?_⟩, ?_, fun r hr => basicAuth_reject_facts cfg h r hr⟩
  · rintro ⟨u, hu'⟩
    obtain ⟨c, hpb, huser, h1, h2⟩ := (basicAuth_proceed_iff cfg h u).1 hu'
    rw [hu] at h1
    rw [hp] at h2
    have h1' : (c.user == eu) = true := h1
    refine ⟨c, hpb, eq_of_beq h1', (jsStrictEqOpt_some_right _ _).1 h2⟩
  · rintro ⟨c, hpb, huser, hpass⟩
    refine ⟨eu, (basicAuth_proceed_iff cfg h eu).2 ⟨c, hpb, huser, ?_, ?_⟩⟩
    · rw [hu, huser]
      simp [jsStrictEqOpt]
    · rw [hp, hpass]
      simp [jsStrictEqOpt]
  · intro u hu'
    obtain ⟨c, hpb, huser, h1, h2⟩ := (basicAuth_proceed_iff cfg h u).1 hu'
    rw [hu] at h1
    have h1' : (c.user == eu) = true := h1
    rw [← huser, eq_of_beq h1']

/-- C2 witness: the configured pair `admin`/`secret` is accepted from its
Basic header, and a wrong password is rejected 401 with the challenge. -/
theorem c2_credential_decision_witness :
    (∃ u, basicAuth ⟨some "admin", some "secret"⟩ (some "Basic YWRtaW46c2VjcmV0") = .proceed u)
    ∧ (∀ r, basicAuth ⟨some "admin", some "secret"⟩ (some "Basic d3Jvbmc=") = .reject r →
        r.status = 401 ∧ r.wwwAuthenticate = some challengeValue
          ∧ ∃ m, r.body = .errMsg m) := by
  refine ⟨((c2_credential_decision ⟨some "admin", some "secret"⟩
      (some "Basic YWRtaW46c2VjcmV0") "admin" "secret" rfl rfl).1).2
    ⟨⟨"admin", some "secret"⟩, by decide, rfl, rfl⟩,
    (c2_credential_decision ⟨some "admin", some "secret"⟩
      (some "Basic d3Jvbmc=") "admin" "secret" rfl rfl).2.2⟩

/-- C5: deleting an existing id answers 200 echoing the id as `deletedId`
and a subsequent get-by-id on the same id answers 404; deleting an id with
no matching record answers 404 and leaves the store unchanged. -/
theorem c5_delete_semantics (st : Store) (idStr : String) :
    (st.rows.any (idMatches idStr) = true →
      (deleteHandler dbOk idStr st).response = some ⟨200, .deleted idStr, none⟩
      ∧ (getByIdHandler dbOk idStr (deleteHandler dbOk idStr st).store).response
          = some ⟨404, .errMsg "Not found", none⟩)
    ∧ (st.rows.any (idMatches idStr) = false →
      (deleteHandler dbOk idStr st).response = some ⟨404, .errMsg "Not found", none⟩
      ∧ (deleteHandler dbOk idStr st).store = st) := by
  constructor
  · intro hex
    have hne : (st.rows.filter (idMatches idStr)).length ≠ 0 := by
      obtain ⟨x, hx, hpx⟩ := List.any_eq_true.1 hex
      have : x ∈ st.rows.filter (idMatches idStr) := List.mem_filter.2 ⟨hx, hpx⟩
      intro hlen
      rw [List.length_eq_zero] at hlen
      rw [hlen] at this
      exact absurd this (List.not_mem_nil x)
    have hbe : ((st.rows.filter (idMatches idStr)).length == 0) = false := by
      simpa using hne
    refine ⟨?_, ?_⟩
    · simp [deleteHandler, dbOk, hbe]
    · have hstore : (deleteHandler dbOk idStr st).store
          = ⟨st.rows.filter (fun r => !idMatches idStr r), st.nextId⟩ := by
        simp [deleteHandler, dbOk, hbe]
      rw [hstore]
      have hfind : (st.rows.filter (fun r => !idMatches idStr r)).find? (idMatches idStr)
          = none := by
        rw [List.find?_eq_none]
        intro y hy
        have := (List.mem_filter.1 hy).2
        simp at this
        simp [this]
      simp [getByIdHandler, dbOk, hfind]
  · intro hnone
    have hnil : st.rows.filter (idMatches idStr) = [] := by
      rw [List.filter_eq_nil_iff]
      intro a ha
      have := List.any_eq_false.1 (by simpa using hnone) a ha
      simpa using this
    refine ⟨?_, ?_⟩ <;> simp [deleteHandler, dbOk, hnil]

/-- C5 witness: on a concrete two-row store, deleting id `1` answers 200
`{deletedId: "1"}` and the subsequent get answers 404, while deleting the
absent id `99` answers 404 with the store unchanged. -/
theorem c5_delete_semantics_witness :
    ((deleteHandler dbOk "1" ⟨[⟨1, some "a", none, none, "r", true, "s", "c"⟩,
        ⟨2, some "b", none, none, "r", true, "s", "c"⟩], 3⟩).response
      = some ⟨200, .deleted "1", none⟩
    ∧ (getByIdHandler dbOk "1" (deleteHandler dbOk "1"
        ⟨[⟨1, some "a", none, none, "r", true, "s", "c"⟩,
          ⟨2, some "b", none, none, "r", true, "s", "c"⟩], 3⟩).store).response
      = some ⟨404, .errMsg "Not found", none⟩)
    ∧ ((deleteHandler dbOk "99" ⟨[⟨1, some "a", none, none, "r", true, "s", "c"⟩,
        ⟨2, some "b", none, none, "r", true, "s", "c"⟩], 3⟩).response
      = some ⟨404, .errMsg "Not found", none⟩
    ∧ (deleteHandler dbOk "99" ⟨[⟨1, some "a", none, none, "r", true, "s", "c"⟩,
        ⟨2, some "b", none, none, "r", true, "s", "c"⟩], 3⟩).store
      = ⟨[⟨1, some "a", none, none, "r", true, "s", "c"⟩,
          ⟨2, some "b", none, none, "r", true, "s", "c"⟩], 3⟩) :=
  ⟨(c5_delete_semantics ⟨[⟨1, some "a", none, none, "r", true, "s", "c"⟩,
      ⟨2, some "b", none, none, "r", true, "s", "c"⟩], 3⟩ "1").1 (by decide),
   (c5_delete_semantics ⟨[⟨1, some "a", none, none, "r", true, "s", "c"⟩,
      ⟨2, some "b", none, none, "r", true, "s", "c"⟩], 3⟩ "99").2 (by decide)⟩

theorem splitChar_ne_nil (sep : Char) (l : List Char) : splitChar sep l ≠ [] := by
  cases l with
  | nil => simp [splitChar]
  | cons c cs =>
    rw [splitChar]
    by_cases h : (c == sep) = true
    · rw [if_pos h]
      simp
    · rw [if_neg h]
      cases hs : splitChar sep cs with
      | nil => simp
      | cons l ls => simp

theorem splitChar_nosep (sep : Char) (a : List Char) (h : sep ∉ a) :
    splitChar sep a = [a] := by
  induction a with
  | nil => rfl
  | cons c cs ih =>
    have hc : (c == sep) = false := by
      simp only [beq_eq_false_iff_ne, ne_eq]
      rintro rfl
      exact h (List.mem_cons_self c cs)
    have h2 : sep ∉ cs := fun hm => h (List.mem_cons_of_mem c hm)
    simp [splitChar, hc, ih h2]

theorem splitChar_append (sep : Char) (a r : List Char) (h : sep ∉ a) :
    splitChar sep (a ++ sep :: r) = a :: splitChar sep r := by
  induction a with
  | nil => simp [splitChar]
  | cons c cs ih =>
    have hc : (c == sep) = false := by
      simp only [beq_eq_false_iff_ne, ne_eq]
      rintro rfl
      exact h (List.mem_cons_self c cs)
    have h2 : sep ∉ cs := fun hm => h (List.mem_cons_of_mem c hm)
    simp [splitChar, hc, ih h2]

theorem splitChar_parts_nosep (sep : Char) (l : List Char) :
    ∀ part ∈ splitChar sep l, sep ∉ part := by
  induction l with
  | nil =>
    intro part hpart
    simp only [splitChar, List.mem_singleton] at hpart
    subst hpart
    exact List.not_mem_nil sep
  | cons c cs ih =>
    intro part hpart
    rw [splitChar] at hpart
    by_cases hc : (c == sep) = true
    · rw [if_pos hc] at hpart
      rcases List.mem_cons.1 hpart with rfl | hm
      · exact List.not_mem_nil sep
      · exact ih part hm
    · rw [if_neg hc] at hpart
      cases hs : splitChar sep cs with
      | nil => exact absurd hs (splitChar_ne_nil sep cs)
      | cons l0 ls =>
        rw [hs] at hpart
        rcases List.mem_cons.1 hpart with rfl | hm
        · intro hmem
          rcases List.mem_cons.1 hmem with rfl | hm2
          · exact hc (by simp)
          · exact ih l0 (hs ▸ List.mem_cons_self l0 ls) hm2
        · exact ih part (hs ▸ List.mem_cons_of_mem l0 hm)

theorem segStarts_iff (p : List Char) : ∀ l, segStarts p l = true ↔ ∃ r, l = p ++ r := by
  induction p with
  | nil =>
    intro l
    simp [segStarts]
  | cons a p ih =>
    intro l
    cases l with
    | nil =>
      simp only [segStarts]
      constructor
      · intro h
        cases h
      · rintro ⟨r, hr⟩
        simp at hr
    | cons b bs =>
      rw [segStarts, Bool.and_eq_true, beq_iff_eq, ih bs]
      constructor
      · rintro ⟨rfl, r, rfl⟩
        exact ⟨r, rfl⟩
      · rintro ⟨r, hr⟩
        rw [List.cons_append, List.cons_eq_cons] at hr
        exact ⟨hr.1.symm, r, hr.2⟩

/-- C6 counterexample: a colon-less decoded payload and a malformed base64
payload are both reported as parsed credentials (with an absent password),
not as the uniform "no credentials supplied" outcome that a missing header
produces; the checker consequently answers them with a different error
body than the missing-header case. -/
theorem c6_nonuniform_counterexample :
    parseBasicAuth (some "Basic Zm9vYmFy") = some ⟨"foobar", none⟩
    ∧ parseBasicAuth (some "Basic !!!!") = some ⟨"", none⟩
    ∧ parseBasicAuth none = none
    ∧ basicAuth ⟨some "admin", some "secret"⟩ (some "Basic Zm9vYmFy")
        = .reject ⟨401, .errMsg "Unauthorized", some challengeValue⟩
    ∧ basicAuth ⟨some "admin", some "secret"⟩ none
        = .reject ⟨401, .errMsg "Missing or invalid Authorization header",
            some challengeValue⟩ := by
  refine ⟨by decide, by decide, rfl, by decide, rfl⟩

/-- C6 amended: the parser reports "no credentials supplied" (`none`)
exactly for a missing header, an empty header, or a header not starting
with `"Basic "`; it never throws, but a malformed base64 payload is
decoded leniently and a colon-less payload yields a credential pair with
an absent password rather than the no-credentials outcome. -/
theorem c6_parse_uniformity :
    parseBasicAuth none = none
    ∧ ∀ s : String, (parseBasicAuth (some s) = none ↔
        s = "" ∨ jsStartsWith s "Basic " = false) := by
  refine ⟨rfl, fun s => ?_⟩
  rw [parseBasicAuth, Option.map_eq_none']
  simp only [decodedPayload]
  by_cases h0 : (s == "") = true
  · rw [if_pos h0]
    simp [eq_of_beq h0]
  · rw [if_neg h0]
    by_cases h1 : jsStartsWith s "Basic " = true
    · rw [if_neg (by simp [h1])]
      obtain ⟨r, hr⟩ := (segStarts_iff "Basic ".toList s.toList).1 h1
      have hr' : s.toList = ['B', 'a', 's', 'i', 'c'] ++ (' ' :: r) := by
        rw [hr]
        rfl
      have hsplit : splitChar ' ' s.toList = ['B', 'a', 's', 'i', 'c'] :: splitChar ' ' r := by
        rw [hr']
        exact splitChar_append ' ' ['B', 'a', 's', 'i', 'c'] r (by decide)
      obtain ⟨x, xs, hxs⟩ : ∃ x xs, splitChar ' ' r = x :: xs := by
        cases hq : splitChar ' ' r with
        | nil => exact absurd hq (splitChar_ne_nil ' ' r)
        | cons x xs => exact ⟨x, xs, rfl⟩
      have hget : (jsSplitOn ' ' s).get? 1 = some (String.mk x) := by
        rw [jsSplitOn, hsplit, hxs]
        rfl
      rw [hget]
      constructor
      · intro hc
        exact absurd hc (by simp)
      · rintro (rfl | hf)
        · exact absurd (beq_self_eq_true "") h0
        · rw [h1] at hf
          cases hf
    · have h1' : jsStartsWith s "Basic " = false := by
        cases hx : jsStartsWith s "Basic "
        · rfl
        · exact absurd hx h1
      rw [if_pos (by simp [h1'])]
      simp [h1']

/-- C10: the parser takes the text before the first colon of the decoded
payload as the username and only the text between the first and second
colons as the password, discarding the rest; hence when the configured
password itself contains a colon, no header is ever accepted. -/
theorem c10_colon_splitting (cfg : AdminConfig) (p : String)
    (hp : cfg.adminPass = some p) (hcolon : ':' ∈ p.toList) :
    (∀ (h : Option String) (u : String), basicAuth cfg h ≠ .proceed u)
    ∧ (∀ (h : Option String) (a b rest : List Char), ':' ∉ a → ':' ∉ b →
        decodedPayload h = some (String.mk (a ++ ':' :: (b ++ ':' :: rest))) →
        parseBasicAuth h = some ⟨String.mk a, some (String.mk b)⟩) := by
  constructor
  · intro h u hpr
    obtain ⟨c, hpb, _, _, h2⟩ := (basicAuth_proceed_iff cfg h u).1 hpr
    rw [hp] at h2
    have hcp : c.pass = some p := (jsStrictEqOpt_some_right _ _).1 h2
    cases hd : decodedPayload h with
    | none =>
      rw [parseBasicAuth, hd] at hpb
      exact absurd hpb (by simp)
    | some d =>
      rw [parseBasicAuth, hd] at hpb
      simp only [Option.map_some', Option.some.injEq] at hpb
      rw [← hpb] at hcp
      simp only at hcp
      obtain ⟨part, hpart, hpartp⟩ : ∃ part, (splitChar ':' d.toList).get? 1 = some part
          ∧ String.mk part = p := by
        cases hg : (splitChar ':' d.toList).get? 1 with
        | none => rw [hg] at hcp; cases hcp
        | some part =>
          rw [hg] at hcp
          simp only [Option.map_some', Option.some.injEq] at hcp
          exact ⟨part, rfl, hcp⟩
      have hmem : part ∈ splitChar ':' d.toList := List.get?_mem hpart
      have hnocolon : ':' ∉ part := splitChar_parts_nosep ':' d.toList part hmem
      have : p.toList = part := by
        rw [← hpartp]
        rfl
      rw [this] at hcolon
      exact hnocolon hcolon
  · intro h a b rest ha hb hd
    rw [parseBasicAuth, hd]
    have h1 : splitChar ':' ((String.mk (a ++ ':' :: (b ++ ':' :: rest))).toList)
        = a :: b :: splitChar ':' rest := by
      have e : (String.mk (a ++ ':' :: (b ++ ':' :: rest))).toList
          = a ++ ':' :: (b ++ ':' :: rest) := rfl
      rw [e, splitChar_append ':' a _ ha, splitChar_append ':' b rest hb]
    simp only [Option.map_some', h1]
    rfl

/-- C10 witness: the payload `user:pa:ss` parses to username `user` and
password `pa` (the trailing `:ss` is discarded), and with the configured
password `a:b` that very header is rejected. -/
theorem c10_colon_splitting_witness :
    basicAuth ⟨some "admin", some "a:b"⟩ (some "Basic dXNlcjpwYTpzcw==") ≠ .proceed "user"
    ∧ parseBasicAuth (some "Basic dXNlcjpwYTpzcw==")
        = some ⟨String.mk ['u', 's', 'e', 'r'], some (String.mk ['p', 'a'])⟩ :=
  ⟨(c10_colon_splitting ⟨some "admin", some "a:b"⟩ "a:b" rfl (by decide)).1
      (some "Basic dXNlcjpwYTpzcw==") "user",
   (c10_colon_splitting ⟨some "admin", some "a:b"⟩ "a:b" rfl (by decide)).2
      (some "Basic dXNlcjpwYTpzcw==") ['u', 's', 'e', 'r'] ['p', 'a'] ['s', 's']
      (by decide) (by decide) (by decide)⟩

/-- No LIKE wildcard or escape characters in a pattern fragment. -/
def noWild (p : List Char) : Bool :=
  p.all (fun c => !(c == '%') && !(c == '_') && !(c == '\\'))

/-- No LIKE wildcard or escape characters in a search string. -/
def noWildStr (s : String) : Bool := noWild s.toList

/-- Test that `sub` occurs in an optional field; a NULL field contains nothing. -/
def optContains (sub : String) : Option String → Bool
  | none => false
  | some s => substrB sub s

/-- The search term occurs in at least one of the three filtered columns. -/
def anyFieldContains (sub : String) (r : SurveyRow) : Bool :=
  optContains sub r.brand_name || optContains sub r.brand_service
    || optContains sub r.description

theorem likeSuffixAny_isEmpty (t : List Char) : likeSuffixAny List.isEmpty t = true := by
  induction t with
  | nil => rfl
  | cons c t ih => simp [likeSuffixAny, ih]

theorem likeMatch_nil (u : List Char) : likeMatch [] u = u.isEmpty := by
  rw [likeMatch.eq_def]

theorem likeMatch_cons_percent (p t : List Char) :
    likeMatch ('%' :: p) t = likeSuffixAny (likeMatch p) t := by
  rw [likeMatch.eq_def]
  dsimp only
  rw [if_pos (by decide : (('%' : Char) == '%') = true)]

theorem likeMatch_cons_plain_nil (c : Char) (p : List Char)
    (h1 : (c == '%') = false) (h3 : (c == '\\') = false) :
    likeMatch (c :: p) [] = false := by
  rw [likeMatch.eq_def]
  dsimp only
  rw [if_neg (by simp [h1]), if_neg (by simp [h3])]

theorem likeMatch_cons_plain (c : Char) (p : List Char) (c' : Char) (t' : List Char)
    (h1 : (c == '%') = false) (h3 : (c == '\\') = false) :
    likeMatch (c :: p) (c' :: t')
      = ((if c == '_' then true else c == c') && likeMatch p t') := by
  rw [likeMatch.eq_def]
  dsimp only
  rw [if_neg (by simp [h1]), if_neg (by simp [h3])]

theorem likeMatch_append_percent (p : List Char) (hw : noWild p = true) :
    ∀ t, likeMatch (p ++ ['%']) t = segStarts p t := by
  induction p with
  | nil =>
    intro t
    have h1 : likeMatch ([] ++ ['%']) t = likeSuffixAny (likeMatch []) t := by
      rw [List.nil_append, likeMatch_cons_percent]
    have h2 : likeSuffixAny (likeMatch []) t = likeSuffixAny List.isEmpty t := by
      have he : likeMatch [] = List.isEmpty := funext likeMatch_nil
      rw [he]
    rw [h1, h2, likeSuffixAny_isEmpty]
    rfl
  | cons c p ih =>
    intro t
    have hw' : noWild p = true := by
      rw [noWild, List.all_cons, Bool.and_eq_true] at hw
      exact hw.2
    have hc : (c == '%') = false ∧ (c == '_') = false ∧ (c == '\\') = false := by
      rw [noWild, List.all_cons, Bool.and_eq_true] at hw
      have hhead := hw.1
      rw [Bool.and_eq_true] at hhead
      obtain ⟨h12, h3⟩ := hhead
      rw [Bool.and_eq_true] at h12
      exact ⟨by simpa using h12.1, by simpa using h12.2, by simpa using h3⟩
    cases t with
    | nil =>
      rw [List.cons_append, likeMatch_cons_plain_nil c _ hc.1 hc.2.2]
      rfl
    | cons c' t' =>
      rw [List.cons_append, likeMatch_cons_plain c _ c' t' hc.1 hc.2.2]
      simp only [hc.2.1, if_false, Bool.false_eq_true]
      rw [ih hw' t']
      rfl

theorem likeSuffixAny_segStarts (p : List Char) :
    ∀ t, likeSuffixAny (segStarts p) t = segInside p t := by
  intro t
  induction t with
  | nil => rfl
  | cons c t ih =>
    rw [likeSuffixAny, ih]
    rfl

theorem likeMatch_wrap (p : List Char) (hw : noWild p = true) (t : List Char) :
    likeMatch ('%' :: (p ++ ['%'])) t = segInside p t := by
  rw [likeMatch_cons_percent]
  have he : likeMatch (p ++ ['%']) = segStarts p := funext (likeMatch_append_percent p hw)
  rw [he, likeSuffixAny_segStarts]

theorem wrapLike_toList (S : String) :
    (wrapLike S).toList = '%' :: (S.toList ++ ['%']) := rfl

theorem optLike_wrap_eq (S : String) (hw : noWildStr S = true) (o : Option String) :
    optLike (wrapLike S) o = optContains S o := by
  cases o with
  | none => rfl
  | some s =>
    rw [optLike, wrapLike_toList, likeMatch_wrap S.toList hw s.toList]
    rfl

theorem rowMatchesSearch_eq_contains (S : String) (hne : (S == "") = false)
    (hw : noWildStr S = true) (r : SurveyRow) :
    rowMatchesSearch S r = anyFieldContains S r := by
  rw [rowMatchesSearch, if_neg (by simp [hne]),
    optLike_wrap_eq S hw, optLike_wrap_eq S hw, optLike_wrap_eq S hw]
  rfl

theorem mem_insertRowSorted (r x : SurveyRow) (l : List SurveyRow) :
    x ∈ insertRowSorted r l ↔ x = r ∨ x ∈ l := by
  induction l with
  | nil => simp [insertRowSorted]
  | cons y ys ih =>
    rw [insertRowSorted]
    by_cases h : rowBefore r y = true
    · rw [if_pos h]
      simp [List.mem_cons]
    · rw [if_neg h]
      rw [List.mem_cons, ih, List.mem_cons]
      tauto

theorem mem_sortRows (x : SurveyRow) (l : List SurveyRow) :
    x ∈ sortRows l ↔ x ∈ l := by
  induction l with
  | nil => simp [sortRows]
  | cons y ys ih =>
    have : sortRows (y :: ys) = insertRowSorted y (sortRows ys) := rfl
    rw [this, mem_insertRowSorted, ih, List.mem_cons]

theorem listHandler_ok_inversion (q : ListQuery) (st : Store) (items : List SurveyRow)
    (total : Nat) (pg lm : Option Int)
    (h : (listHandler dbOk q st).response = some ⟨200, .listing items total pg lm, none⟩) :
    ∃ l o : Int, effLimitNum q = some l ∧ effOffset q = some o
      ∧ (decide (l < 0) || decide (o < 0)) = false
      ∧ items = ((sortRows (st.rows.filter (rowMatchesSearch (effSearch q)))).drop
          o.toNat).take l.toNat
      ∧ total = (st.rows.filter (rowMatchesSearch (effSearch q))).length
      ∧ pg = effPageNum q ∧ lm = effLimitNum q := by
  cases hl : effLimitNum q with
  | none =>
    simp [listHandler, dbOk, execListQuery, hl] at h
  | some l =>
    cases ho : effOffset q with
    | none =>
      simp [listHandler, dbOk, execListQuery, hl, ho] at h
    | some o =>
      by_cases hneg : (decide (l < 0) || decide (o < 0)) = true
      · simp [listHandler, dbOk, execListQuery, hl, ho, hneg] at h
      · have hneg' : (decide (l < 0) || decide (o < 0)) = false :=
          Bool.not_eq_true _ ▸ (by simpa using hneg)
        simp only [listHandler, dbOk, execListQuery, hl, ho, hneg', Bool.false_eq_true,
          if_false, Option.some.injEq, Response.mk.injEq, RespBody.listing.injEq] at h
        exact ⟨l, o, rfl, rfl, hneg', h.2.1.1.symm, h.2.1.2.1.symm,
          h.2.1.2.2.1.symm, h.2.1.2.2.2.symm⟩

/-- C3 counterexample: with a non-numeric `page` value the effective page
is `NaN` rather than being defaulted to 1 or floored at 1, and the list
request fails with a 500 instead of returning a page-1 window. -/
theorem c3_nan_page_counterexample :
    effPageNum ⟨some "abc", none, none⟩ = none
    ∧ (¬ ∃ n : Int, effPageNum ⟨some "abc", none, none⟩ = some n ∧ 1 ≤ n)
    ∧ (listHandler dbOk ⟨some "abc", none, none⟩ ⟨[], 1⟩).response
        = some ⟨500, .errMsg "Failed to fetch surveys", none⟩ := by
  refine ⟨by decide, ?_, by decide⟩
  rintro ⟨n, hn, -⟩
  rw [show effPageNum ⟨some "abc", none, none⟩ = none from by decide] at hn
  cases hn

/-- C3 amended: when `page` and `limit` parse as integers, the effective
page defaults to 1 and is floored at 1, the effective limit defaults to 20
and is capped at 100, the offset is `(page-1)*limit`, and a successful
listing returns exactly the corresponding window of the filtered result
set in `submitted_at DESC, id DESC` order, with at most `limit` items;
a non-numeric `page` or `limit` yields `NaN` and the request fails 500. -/
theorem c3_pagination_window (q : ListQuery) (st : Store) (P L : Int)
    (hp : parseIntJs (jsOr q.page "1") = some P)
    (hl : parseIntJs (jsOr q.limit "20") = some L) :
    effPageNum q = some (max 1 P)
    ∧ (1 : Int) ≤ max 1 P
    ∧ effLimitNum q = some (min 100 L)
    ∧ min 100 L ≤ 100
    ∧ effOffset q = some ((max 1 P - 1) * min 100 L)
    ∧ ∀ items total pg lm, (listHandler dbOk q st).response
        = some ⟨200, .listing items total pg lm, none⟩ →
        items = ((sortRows (st.rows.filter (rowMatchesSearch (effSearch q)))).drop
            ((max 1 P - 1) * min 100 L).toNat).take (min 100 L).toNat
        ∧ items.length ≤ (min 100 L).toNat
        ∧ pg = some (max 1 P) ∧ lm = some (min 100 L) := by
  have hpage : effPageNum q = some (max 1 P) := by
    rw [effPageNum, hp]
    rfl
  have hlim : effLimitNum q = some (min 100 L) := by
    rw [effLimitNum, hl]
    rfl
  have hoff : effOffset q = some ((max 1 P - 1) * min 100 L) := by
    rw [effOffset, hpage, hlim]
  refine ⟨hpage, le_max_left 1 P, hlim, min_le_left 100 L, hoff, ?_⟩
  intro items total pg lm h
  obtain ⟨l, o, hl', ho', hneg, hitems, htot, hpg, hlm⟩ :=
    listHandler_ok_inversion q st items total pg lm h
  rw [hlim] at hl'
  rw [hoff] at ho'
  have hleq : l = min 100 L := (Option.some.inj hl').symm
  have hoeq : o = (max 1 P - 1) * min 100 L := (Option.some.inj ho').symm
  subst hleq hoeq
  refine ⟨hitems, ?_, hpg.trans hpage, hlm.trans hlim⟩
  rw [hitems]
  exact List.length_take_le _ _

/-- C3 witness: a concrete request with `page=2, limit=1` on a two-row
store returns exactly the second row of the ordered set, one item. -/
theorem c3_pagination_window_witness :
    effPageNum ⟨some "2", some "1", none⟩ = some (max 1 2)
    ∧ effLimitNum ⟨some "2", some "1", none⟩ = some (min 100 1)
    ∧ effOffset ⟨some "2", some "1", none⟩ = some ((max 1 2 - 1) * min 100 1)
    ∧ ([⟨2, some "b", none, none, "r", true, "2024-01-01", "c"⟩] : List SurveyRow)
        = ((sortRows ((⟨[⟨1, some "a", none, none, "r", true, "2024-01-02", "c"⟩,
              ⟨2, some "b", none, none, "r", true, "2024-01-01", "c"⟩], 3⟩ : Store).rows.filter
              (rowMatchesSearch (effSearch ⟨some "2", some "1", none⟩)))).drop
            (((max 1 2 - 1) * min 100 1 : Int)).toNat).take ((min 100 1 : Int)).toNat
    ∧ ([⟨2, some "b", none, none, "r", true, "2024-01-01", "c"⟩] : List SurveyRow).length
        ≤ ((min 100 1 : Int)).toNat := by
  have h := c3_pagination_window ⟨some "2", some "1", none⟩
    ⟨[⟨1, some "a", none, none, "r", true, "2024-01-02", "c"⟩,
      ⟨2, some "b", none, none, "r", true, "2024-01-01", "c"⟩], 3⟩ 2 1 (by decide) (by decide)
  have h6 := h.2.2.2.2.2 [⟨2, some "b", none, none, "r", true, "2024-01-01", "c"⟩]
    2 (some 2) (some 1) (by decide)
  exact ⟨h.1, h.2.2.1, h.2.2.2.2.1, h6.1, h6.2.1⟩

/-- C4 counterexample: the search term is passed to `LIKE` unescaped, so a
term containing the `_` wildcard returns an item that does not contain the
term as a substring in any of the three fields (here `a_c` matches `abc`),
and likewise a term containing the default backslash escape character
returns an item lacking it (the escape is stripped, so `a\b` matches
`ab`). -/
theorem c4_wildcard_counterexample :
    ((listHandler dbOk ⟨none, none, some "a_c"⟩
        ⟨[⟨1, some "abc", none, none, "r", true, "s", "c"⟩], 2⟩).response
      = some ⟨200, .listing [⟨1, some "abc", none, none, "r", true, "s", "c"⟩]
          1 (some 1) (some 20), none⟩
    ∧ anyFieldContains "a_c" ⟨1, some "abc", none, none, "r", true, "s", "c"⟩ = false)
    ∧ ((listHandler dbOk ⟨none, none, some "a\\b"⟩
        ⟨[⟨1, some "ab", none, none, "r", true, "s", "c"⟩], 2⟩).response
      = some ⟨200, .listing [⟨1, some "ab", none, none, "r", true, "s", "c"⟩]
          1 (some 1) (some 20), none⟩
    ∧ anyFieldContains "a\\b" ⟨1, some "ab", none, none, "r", true, "s", "c"⟩ = false) := by
  exact ⟨⟨by decide, by decide⟩, ⟨by decide, by decide⟩⟩

/-- C4 amended: both queries share the same filter clause with one
wildcard-wrapped term supplied in all three positions exactly when the
trimmed search is non-empty, and no filter is applied when it is empty;
when the search term itself contains no `LIKE` wildcard or escape
character (`%`, `_`, or backslash), every returned item contains it in
one of the three fields and rows lacking it in all three are excluded. -/
theorem c4_search_filter (q : ListQuery) (st : Store) (S : String)
    (hS : effSearch q = S) :
    (S ≠ "" →
      buildCountQuery S = (countSqlBase ++ likeClauseStr,
        [.str (wrapLike S), .str (wrapLike S), .str (wrapLike S)])
      ∧ (∀ lim off : Option Int, buildDataQuery S lim off
          = (dataSqlBase ++ likeClauseStr ++ orderLimitStr,
             [.str (wrapLike S), .str (wrapLike S), .str (wrapLike S), .num lim, .num off])))
    ∧ (S ≠ "" → noWildStr S = true →
        ∀ items total pg lm, (listHandler dbOk q st).response
            = some ⟨200, .listing items total pg lm, none⟩ →
          (∀ r ∈ items, anyFieldContains S r = true)
          ∧ (∀ r ∈ st.rows, anyFieldContains S r = false → r ∉ items))
    ∧ (S = "" →
        buildCountQuery S = (countSqlBase, [])
        ∧ (∀ lim off : Option Int, buildDataQuery S lim off
            = (dataSqlBase ++ orderLimitStr, [.num lim, .num off]))
        ∧ ∀ r, rowMatchesSearch S r = true) := by
  refine ⟨?_, ?_, ?_⟩
  · intro hne
    have hb : (S == "") = false := beq_eq_false_iff_ne.2 hne
    refine ⟨?_, ?_⟩
    · rw [buildCountQuery, if_neg (by simp [hb])]
    · intro lim off
      rw [buildDataQuery]
      simp only [hb, Bool.false_eq_true, if_false]
      rfl
  · intro hne hw items total pg lm h
    have hb : (S == "") = false := beq_eq_false_iff_ne.2 hne
    obtain ⟨l, o, hl, ho, hneg, hitems, -, -, -⟩ :=
      listHandler_ok_inversion q st items total pg lm h
    rw [hS] at hitems
    have hsub : ∀ r ∈ items, r ∈ st.rows.filter (rowMatchesSearch S) := by
      intro r hr
      rw [hitems] at hr
      have h1 := List.take_subset _ _ hr
      have h2 := List.drop_subset _ _ h1
      exact (mem_sortRows r _).1 h2
    refine ⟨?_, ?_⟩
    · intro r hr
      have hmatch := (List.mem_filter.1 (hsub r hr)).2
      rw [rowMatchesSearch_eq_contains S hb hw r] at hmatch
      exact hmatch
    · intro r hrows hnc hin
      have hmatch := (List.mem_filter.1 (hsub r hin)).2
      rw [rowMatchesSearch_eq_contains S hb hw r, hnc] at hmatch
      cases hmatch
  · intro he
    subst he
    refine ⟨by rw [buildCountQuery, if_pos (by decide)], ?_, ?_⟩
    · intro lim off
      rw [buildDataQuery]
      simp only [if_pos (by decide : (("" : String) == "") = true)]
      rfl
    · intro r
      rw [rowMatchesSearch, if_pos (by decide)]

/-- C4 witness: with search `abc`, the count query carries the filter
clause with the tripled `%abc%` parameter, a concrete matching row is
returned and does contain `abc`, and with an empty search no filter is
applied. -/
theorem c4_search_filter_witness :
    buildCountQuery "abc" = (countSqlBase ++ likeClauseStr,
      [.str (wrapLike "abc"), .str (wrapLike "abc"), .str (wrapLike "abc")])
    ∧ anyFieldContains "abc" ⟨1, some "xabcy", none, none, "r", true, "s", "c"⟩ = true
    ∧ buildCountQuery "" = (countSqlBase, [])
    ∧ rowMatchesSearch "" ⟨1, some "xabcy", none, none, "r", true, "s", "c"⟩ = true := by
  refine ⟨((c4_search_filter ⟨none, none, some "abc"⟩
      ⟨[⟨1, some "xabcy", none, none, "r", true, "s", "c"⟩], 2⟩ "abc" (by decide)).1
        (by decide)).1, ?_, ?_, ?_⟩
  · exact (((c4_search_filter ⟨none, none, some "abc"⟩
      ⟨[⟨1, some "xabcy", none, none, "r", true, "s", "c"⟩], 2⟩ "abc" (by decide)).2.1
        (by decide) (by decide)
        [⟨1, some "xabcy", none, none, "r", true, "s", "c"⟩] 1 (some 1) (some 20)
        (by decide)).1
      ⟨1, some "xabcy", none, none, "r", true, "s", "c"⟩ (by decide))
  · exact ((c4_search_filter ⟨none, none, none⟩
      ⟨[], 1⟩ "" (by decide)).2.2 rfl).1
  · exact (((c4_search_filter ⟨none, none, none⟩
      ⟨[], 1⟩ "" (by decide)).2.2 rfl).2.2
      ⟨1, some "xabcy", none, none, "r", true, "s", "c"⟩)

/-- C7: on any persistence failure — the insert, the admin queries, or
acquiring the connection — the client receives a 500 with a fixed generic
JSON error body that carries none of the failure detail, while the detail
string is logged server-side; for the public POST route a
connection-acquisition failure escapes the route and is converted by the
catch-all middleware (`Server error`), every other failure is answered by
the route's own catch. -/
theorem c7_persistence_failure (em : EmailEnv) (now : String) (b : SurveyReqBody)
    (st : Store) (q : ListQuery) (idStr : String) (d : String)
    (hv : allSemanticEmpty b = false) :
    ((postSurveyPipeline ⟨none, some d⟩ em now b st).1
        = ⟨500, .errMsg "Failed to save survey", none⟩
      ∧ ("POST /api/surveys error " ++ d) ∈ (postSurveyPipeline ⟨none, some d⟩ em now b st).2.2)
    ∧ ((postSurveyPipeline ⟨some d, none⟩ em now b st).1
        = ⟨500, .errMsg "Server error", none⟩
      ∧ ("Unhandled error: " ++ d) ∈ (postSurveyPipeline ⟨some d, none⟩ em now b st).2.2)
    ∧ ((listHandler ⟨some d, none⟩ q st).response
        = some ⟨500, .errMsg "Failed to fetch surveys", none⟩
      ∧ (listHandler ⟨none, some d⟩ q st).response
        = some ⟨500, .errMsg "Failed to fetch surveys", none⟩
      ∧ ("GET /api/admin/surveys error (detailed): " ++ d)
          ∈ (listHandler ⟨some d, none⟩ q st).logged
      ∧ ("GET /api/admin/surveys error (detailed): " ++ d)
          ∈ (listHandler ⟨none, some d⟩ q st).logged)
    ∧ ((getByIdHandler ⟨some d, none⟩ idStr st).response
        = some ⟨500, .errMsg "Failed to fetch survey detail", none⟩
      ∧ (getByIdHandler ⟨none, some d⟩ idStr st).response
        = some ⟨500, .errMsg "Failed to fetch survey detail", none⟩
      ∧ ("GET /api/admin/surveys/:id error (detailed): " ++ d)
          ∈ (getByIdHandler ⟨some d, none⟩ idStr st).logged)
    ∧ ((deleteHandler ⟨some d, none⟩ idStr st).response
        = some ⟨500, .errMsg "Failed to delete survey", none⟩
      ∧ (deleteHandler ⟨none, some d⟩ idStr st).response
        = some ⟨500, .errMsg "Failed to delete survey", none⟩
      ∧ ("DELETE /api/admin/surveys/:id error (detailed): " ++ d)
          ∈ (deleteHandler ⟨some d, none⟩ idStr st).logged) := by
  refine ⟨⟨?_, ?_⟩, ⟨?_, ?_⟩, ⟨rfl, rfl, ?_, ?_⟩, ⟨rfl, rfl, ?_⟩, ⟨rfl, rfl, ?_⟩⟩
  · simp [postSurveyPipeline, handlePostSurvey, hv]
  · simp [postSurveyPipeline, handlePostSurvey, hv]
  · simp [postSurveyPipeline, handlePostSurvey, hv]
  · simp [postSurveyPipeline, handlePostSurvey, hv]
  · simp [listHandler]
  · simp [listHandler]
  · simp [getByIdHandler]
  · simp [deleteHandler]

/-- C7 witness: the failure responses and logs at a concrete failing
environment, request and store. -/
theorem c7_persistence_failure_witness :
    (postSurveyPipeline ⟨none, some "boom"⟩ ⟨none, none, none, .ok 200⟩ "T"
        ⟨some "Acme", none, none, none, none, none, none⟩ ⟨[], 1⟩).1
      = ⟨500, .errMsg "Failed to save survey", none⟩
    ∧ (postSurveyPipeline ⟨some "boom", none⟩ ⟨none, none, none, .ok 200⟩ "T"
        ⟨some "Acme", none, none, none, none, none, none⟩ ⟨[], 1⟩).1
      = ⟨500, .errMsg "Server error", none⟩
    ∧ (listHandler ⟨some "boom", none⟩ ⟨none, none, none⟩ ⟨[], 1⟩).response
      = some ⟨500, .errMsg "Failed to fetch surveys", none⟩
    ∧ (getByIdHandler ⟨none, some "boom"⟩ "1" ⟨[], 1⟩).response
      = some ⟨500, .errMsg "Failed to fetch survey detail", none⟩
    ∧ (deleteHandler ⟨some "boom", none⟩ "1" ⟨[], 1⟩).response
      = some ⟨500, .errMsg "Failed to delete survey", none⟩ := by
  have h := c7_persistence_failure ⟨none, none, none, .ok 200⟩ "T"
    ⟨some "Acme", none, none, none, none, none, none⟩ ⟨[], 1⟩
    ⟨none, none, none⟩ "1" "boom" (by decide)
  exact ⟨h.1.1, h.2.1.1, h.2.2.1.1, h.2.2.2.1.2.1, h.2.2.2.2.1⟩
